import Mathlib

/-!
Verification of the TTS/STT HTTP API (src/app/main.py, src/app/tts_module.py,
src/app/stt_module.py) against its natural-language specification.

The embedding mirrors the Python source:
* JSON payload values are modelled by `Json` with Python truthiness
  (`payload.get("text")` followed by `if not text`).
* The loaded models are `Option`-valued handles (`None` in Python is `none`);
  the behaviour of the opaque third-party models is a function field of the
  handle structure.
* Python exceptions are values of `Exc`, distinguishing `RuntimeError` (which
  the gateway maps to one 500 message) from every other `Exception` (mapped to
  the other 500 message).
* Side effects of the transcription path (temporary-file creation/removal,
  closing the upload stream, number of model invocations) are tracked in an
  explicit `FsState`; the `finally` block of `transcribe_audio_file` is the
  function `stt_cleanup`, applied on every exit path of the `try`.
* `soundfile.sf.write(buffer, waveform, rate, format='WAV', subtype='PCM_16')`
  on a one-dimensional waveform is modelled by `sf_write_wav_pcm16`, the
  standard 44-byte RIFF/WAVE PCM header followed by the little-endian 16-bit
  samples; `parseWav` is an independent reader of that container format used
  to state WAV validity.
-/

/-- A JSON value, as delivered to the `payload: dict` parameter of the
`/tts/` handler. -/
inductive Json where
  | null : Json
  | bool (b : Bool) : Json
  | num (n : Int) : Json
  | str (s : String) : Json
  | arr (xs : List Json) : Json
  | obj (kvs : List (String × Json)) : Json

/-- Python truthiness (`if not text`): `None`, `False`, `0`, `""`, `[]`, `{}`
are falsy, everything else truthy. -/
def Json.truthy : Json → Bool
  | .null => false
  | .bool b => b
  | .num n => n != 0
  | .str s => !s.isEmpty
  | .arr xs => !xs.isEmpty
  | .obj kvs => !kvs.isEmpty

/-- Whether `x[:50]` succeeds in Python: slicing is defined for strings and
lists, and raises `TypeError` for `None`, booleans, numbers and dicts. -/
def Json.sliceable : Json → Bool
  | .str _ => true
  | .arr _ => true
  | _ => false

/-- A Python exception value reaching the gateway: either a `RuntimeError`
(the wrapper kind raised by the two service modules) or any other
`Exception`, each carrying its message. -/
inductive Exc where
  | runtimeError (msg : String) : Exc
  | otherError (msg : String) : Exc
deriving DecidableEq, Repr

/-- Message of the `TypeError` raised by evaluating `text[:50]` on a
non-subscriptable value. -/
def notSubscriptableMsg : String := "object is not subscriptable"

/-! ## tts_module.py -/

/-- The `synthesizer` sub-component of the Coqui model when
`hasattr(tts_model, \x27synthesizer\x27)` holds; its `output_sample_rate`
field is `some` exactly when
`hasattr(tts_model.synthesizer, \x27output_sample_rate\x27)` holds. -/
structure Synthesizer where
  output_sample_rate : Option Nat

/-- The model's `config.audio` mapping: `sample_rate` is `some` exactly when
the key `\x27sample_rate\x27` is present. -/
structure AudioConfig where
  sample_rate : Option Nat

/-- The model's `config` attribute: `audio` is `some` exactly when the key
`\x27audio\x27` is present in the config. -/
structure TTSConfig where
  audio : Option AudioConfig

/-- A loaded Coqui TTS model handle.  `tts` is the opaque synthesis routine
`tts_model.tts(text=..., speaker=None, language=None)`: it either returns a
waveform (here: the list of 16-bit PCM sample words that the float samples
convert to) or raises an exception with some message. -/
structure TTSModel where
  synthesizer : Option Synthesizer
  config : Option TTSConfig
  tts : Json → Except String (List Nat)

/-- The sample-rate determination of `synthesize_speech_to_bytes`
(tts_module.py lines 46-57): start from 0, take
`synthesizer.output_sample_rate` when the attribute chain exists, else take
`config.audio[\x27sample_rate\x27]` when that chain exists; if the result is
still 0, fall back to 22050. -/
def probe_sample_rate (m : TTSModel) : Nat :=
  let sample_rate : Nat :=
    match m.synthesizer.bind Synthesizer.output_sample_rate with
    | some r => r
    | none =>
      match (m.config.bind TTSConfig.audio).bind AudioConfig.sample_rate with
      | some r => r
      | none => 0
  if sample_rate = 0 then 22050 else sample_rate

/-- The first sample-rate source the ordered probe finds:
`synthesizer.output_sample_rate` if that attribute chain exists, else
`config.audio[\x27sample_rate\x27]` if that chain exists, else none. -/
def probedSource (m : TTSModel) : Option Nat :=
  match m.synthesizer.bind Synthesizer.output_sample_rate with
  | some r => some r
  | none => (m.config.bind TTSConfig.audio).bind AudioConfig.sample_rate

/-- Little-endian 16-bit encoding of a sample word. -/
def u16le (n : Nat) : List Nat := [n % 256, n / 256 % 256]

/-- Little-endian 32-bit encoding of a field value. -/
def u32le (n : Nat) : List Nat :=
  [n % 256, n / 256 % 256, n / 65536 % 256, n / 16777216 % 256]

/-- `soundfile.write(buffer, waveform, sample_rate, format='WAV',
subtype='PCM_16')` on a one-dimensional waveform: the canonical 44-byte
RIFF/WAVE header for mono 16-bit PCM followed by the sample words in
little-endian order. -/
def sf_write_wav_pcm16 (waveform : List Nat) (sampleRate : Nat) : List Nat :=
  let dataBytes := waveform.flatMap u16le
  [0x52, 0x49, 0x46, 0x46] ++ u32le (36 + dataBytes.length)
    ++ [0x57, 0x41, 0x56, 0x45]
    ++ [0x66, 0x6d, 0x74, 0x20] ++ u32le 16 ++ u16le 1 ++ u16le 1
    ++ u32le sampleRate ++ u32le (sampleRate * 2) ++ u16le 2 ++ u16le 16
    ++ [0x64, 0x61, 0x74, 0x61] ++ u32le dataBytes.length ++ dataBytes

/-- `synthesize_speech_to_bytes` (tts_module.py lines 32-68).  Returns the
result (WAV bytes, or the exception that propagates to the caller) together
with the number of times the synthesis model was invoked.
`text_input[:50]` on line 40 is evaluated before the `try` block, so a
`TypeError` from a non-subscriptable input propagates unwrapped; every
exception raised inside the `try` is wrapped into
`RuntimeError("Failed to synthesize speech: ...")`. -/
def synthesize_speech_to_bytes (m : Option TTSModel) (text_input : Json) :
    Except Exc (List Nat) × Nat :=
  match m with
  | none =>
    (.error (.runtimeError
      "TTS model is not loaded. Please check logs for errors during startup."), 0)
  | some model =>
    if text_input.sliceable = false then
      (.error (.otherError notSubscriptableMsg), 0)
    else
      match model.tts text_input with
      | .error e =>
        (.error (.runtimeError ("Failed to synthesize speech: " ++ e)), 1)
      | .ok waveform =>
        (.ok (sf_write_wav_pcm16 waveform (probe_sample_rate model)), 1)

/-! ## main.py, /tts/ route -/

/-- The HTTP response produced by the `/tts/` handler: either a 200
streaming response with a body and media type, or an `HTTPException` with a
status code and detail string. -/
inductive TtsResponse where
  | ok (body : List Nat) (mediaType : String) : TtsResponse
  | httpError (status : Nat) (detail : String) : TtsResponse
deriving DecidableEq, Repr

/-- `payload.get("text")` followed by treating the Python `None` result as
the JSON null value. -/
def requestText (payload : List (String × Json)) : Json :=
  (payload.lookup "text").getD Json.null

/-- The `/tts/` handler `text_to_speech` (main.py lines 36-61), returning
the response together with the number of synthesis-model invocations.
Order of checks mirrors the code: handle `None` → 503; falsy `text` → 400;
then the `try` block, whose first statement evaluates `text[:50]` inside a
log call (line 52), so a truthy non-subscriptable `text` raises `TypeError`
there and is mapped by `except Exception` to the unexpected-error 500
without ever calling the synthesis service. -/
def text_to_speech (m : Option TTSModel) (payload : List (String × Json)) :
    TtsResponse × Nat :=
  match m with
  | none =>
    (.httpError 503 "TTS service is unavailable due to model loading issues.", 0)
  | some model =>
    if (requestText payload).truthy = false then
      (.httpError 400
        "\x27text\x27 field is required in the JSON payload.", 0)
    else if (requestText payload).sliceable = false then
      (.httpError 500
        ("An unexpected error occurred during TTS: " ++ notSubscriptableMsg), 0)
    else
      match synthesize_speech_to_bytes (some model) (requestText payload) with
      | (.ok bytes, k) => (.ok bytes "audio/wav", k)
      | (.error (.runtimeError e), k) =>
        (.httpError 500 ("TTS synthesis failed: " ++ e), k)
      | (.error (.otherError e), k) =>
        (.httpError 500 ("An unexpected error occurred during TTS: " ++ e), k)

/-! ## stt_module.py -/

/-- The structured result of `stt_model.transcribe(...)`: the handler keeps
only the `text` field; segments and detected language are carried along and
discarded, as in the source. -/
structure TranscribeResult where
  text : String
  segments : List String
  language : String

/-- A loaded Whisper model handle.  `transcribe` is the opaque recognition
routine applied to the bytes that were copied into the temporary file: it
either returns the structured result or raises with some message. -/
structure STTModel where
  transcribe : List Nat → Except String TranscribeResult

/-- An `UploadFile` as seen by the handler: its `filename` (Python `None` is
`none`), the bytes of the underlying stream, and whether
`shutil.copyfileobj` raises while draining the stream (`some msg` models a
read failure carrying that message). -/
structure UploadFile where
  filename : Option String
  content : List Nat
  copy_error : Option String

/-- The request-scoped filesystem and stream state tracked for a
transcription call: whether the temporary file was ever created, whether it
exists now, whether the upload stream has been closed, and how many times
the recognition model was invoked. -/
structure FsState where
  tmp_created : Bool
  tmp_exists : Bool
  stream_closed : Bool
  invocations : Nat
deriving DecidableEq, Repr

/-- The `finally` block of `transcribe_audio_file` (stt_module.py lines
67-74): remove the temporary file if it exists, then close the uploaded
stream. -/
def stt_cleanup (s : FsState) : FsState :=
  let s1 := if s.tmp_exists then { s with tmp_exists := false } else s
  { s1 with stream_closed := true }

/-- `transcribe_audio_file` (stt_module.py lines 37-76).  A `none` handle
raises `RuntimeError` before any file is created (lines 41-43); otherwise
`tempfile.mkstemp()` creates the temporary file, the stream is copied into
it, the model is invoked, and `result["text"]` is returned; any exception
inside the `try` is wrapped into
`RuntimeError("Failed to transcribe audio: ...")`; the `finally` block
(`stt_cleanup`) runs on every exit path of the `try`. -/
def transcribe_audio_file (m : Option STTModel) (f : UploadFile) :
    Except Exc String × FsState :=
  match m with
  | none =>
    (.error (.runtimeError
      "STT model is not loaded. Please check logs for errors during startup."),
     ⟨false, false, false, 0⟩)
  | some model =>
    match f.copy_error with
    | some msg =>
      (.error (.runtimeError ("Failed to transcribe audio: " ++ msg)),
       stt_cleanup ⟨true, true, false, 0⟩)
    | none =>
      match model.transcribe f.content with
      | .error e =>
        (.error (.runtimeError ("Failed to transcribe audio: " ++ e)),
         stt_cleanup ⟨true, true, false, 1⟩)
      | .ok result =>
        (.ok result.text, stt_cleanup ⟨true, true, false, 1⟩)

/-! ## main.py, /stt/ route -/

/-- The HTTP response produced by the `/stt/` handler: either the 200 JSON
object `{filename, transcription}` or an `HTTPException`. -/
inductive SttResponse where
  | ok (filename : String) (transcription : String) : SttResponse
  | httpError (status : Nat) (detail : String) : SttResponse
deriving DecidableEq, Repr

/-- `if not audio_file.filename`: the filename is falsy when it is `None`
or the empty string. -/
def filenameTruthy : Option String → Bool
  | none => false
  | some s => !s.isEmpty

/-- The `/stt/` handler `speech_to_text` (main.py lines 67-99), returning
the response together with the final request-scoped `FsState`.  Order of
checks mirrors the code: handle `None` → 503 (line 73); falsy filename →
400 (line 77); then the service call, with `RuntimeError` mapped to the
transcription-failed 500 and any other exception to the unexpected-error
500. -/
def speech_to_text (m : Option STTModel) (f : UploadFile) :
    SttResponse × FsState :=
  match m with
  | none =>
    (.httpError 503 "STT service is unavailable due to model loading issues.",
     ⟨false, false, false, 0⟩)
  | some model =>
    if filenameTruthy f.filename = false then
      (.httpError 400 "No audio file provided.", ⟨false, false, false, 0⟩)
    else
      match transcribe_audio_file (some model) f with
      | (.ok t, s) => (.ok (f.filename.getD "") t, s)
      | (.error (.runtimeError e), s) =>
        (.httpError 500 ("STT transcription failed: " ++ e), s)
      | (.error (.otherError e), s) =>
        (.httpError 500 ("An unexpected error occurred during STT: " ++ e), s)

/-! ## The WAV container reader

An independent reader of the RIFF/WAVE PCM container format, used to state
that the `/tts/` body is a valid WAV file: 44-byte header (RIFF tag, file
size, WAVE tag, fmt chunk of size 16 with format/channels/rates/alignment/
bit depth, data chunk tag and size) followed by exactly the announced
number of data bytes. -/

/-- Header fields of a parsed WAV file. -/
structure WavHeader where
  audioFormat : Nat
  numChannels : Nat
  sampleRate : Nat
  byteRate : Nat
  blockAlign : Nat
  bitsPerSample : Nat
  dataSize : Nat
deriving DecidableEq, Repr

/-- Parse a WAV byte sequence: succeeds exactly on a well-formed 44-byte
RIFF/WAVE header with a 16-byte fmt chunk, a consistent RIFF size, and a
data chunk whose announced size matches the remaining bytes. -/
def parseWav (b : List Nat) : Option WavHeader :=
  match b with
  | r1 :: r2 :: r3 :: r4 :: s1 :: s2 :: s3 :: s4
      :: w1 :: w2 :: w3 :: w4 :: f1 :: f2 :: f3 :: f4
      :: g1 :: g2 :: g3 :: g4 :: a1 :: a2 :: c1 :: c2
      :: q1 :: q2 :: q3 :: q4 :: y1 :: y2 :: y3 :: y4
      :: k1 :: k2 :: p1 :: p2 :: t1 :: t2 :: t3 :: t4
      :: d1 :: d2 :: d3 :: d4 :: rest =>
    if r1 = 0x52 ∧ r2 = 0x49 ∧ r3 = 0x46 ∧ r4 = 0x46
        ∧ w1 = 0x57 ∧ w2 = 0x41 ∧ w3 = 0x56 ∧ w4 = 0x45
        ∧ f1 = 0x66 ∧ f2 = 0x6d ∧ f3 = 0x74 ∧ f4 = 0x20
        ∧ g1 + 256 * g2 + 65536 * g3 + 16777216 * g4 = 16
        ∧ t1 = 0x64 ∧ t2 = 0x61 ∧ t3 = 0x74 ∧ t4 = 0x61
        ∧ s1 + 256 * s2 + 65536 * s3 + 16777216 * s4
            = 36 + (d1 + 256 * d2 + 65536 * d3 + 16777216 * d4)
        ∧ rest.length = d1 + 256 * d2 + 65536 * d3 + 16777216 * d4 then
      some ⟨a1 + 256 * a2, c1 + 256 * c2,
            q1 + 256 * q2 + 65536 * q3 + 16777216 * q4,
            y1 + 256 * y2 + 65536 * y3 + 16777216 * y4,
            k1 + 256 * k2, p1 + 256 * p2,
            d1 + 256 * d2 + 65536 * d3 + 16777216 * d4⟩
    else none
  | _ => none

/-! ## Status accessors and concrete instances used in witnesses -/

/-- HTTP status of a `/tts/` response (a streaming success is a 200). -/
def TtsResponse.status : TtsResponse → Nat
  | .ok _ _ => 200
  | .httpError s _ => s

/-- HTTP status of a `/stt/` response (a JSON success is a 200). -/
def SttResponse.status : SttResponse → Nat
  | .ok _ _ => 200
  | .httpError s _ => s

/-- A concrete loaded synthesis model used in witnesses: rate 22050 exposed
on the synthesizer sub-component, succeeding with a two-sample waveform on
every input. -/
def ttsModelA : TTSModel := ⟨some ⟨some 22050⟩, none, fun _ => .ok [1, 2]⟩

/-- A concrete synthesis model whose synthesizer exposes the rate 0 while
the audio config carries 44100, exercising the fallback branch. -/
def ttsModelZero : TTSModel := ⟨some ⟨some 0⟩, some ⟨some ⟨some 44100⟩⟩, fun _ => .ok []⟩

/-- A concrete synthesis model exposing the rate 44100 on its synthesizer. -/
def ttsModel44 : TTSModel := ⟨some ⟨some 44100⟩, none, fun _ => .ok []⟩

/-- A concrete synthesis model that raises `boom` on the text `"ERR"` and
succeeds with a one-sample waveform on every other input; it exposes no
sample-rate source, so the probe falls back to 22050. -/
def ttsModelFlaky : TTSModel :=
  ⟨none, none, fun j => match j with
    | .str "ERR" => .error "boom"
    | _ => .ok [7]⟩

/-- A concrete loaded recognition model transcribing every input to
`"hello"`. -/
def sttModelA : STTModel := ⟨fun _ => .ok ⟨"hello", [], "en"⟩⟩

/-! ## Helper lemmas -/

/-- The `finally` block always leaves the temporary file removed and the
upload stream closed. -/
theorem stt_cleanup_clears (s : FsState) :
    (stt_cleanup s).tmp_exists = false ∧ (stt_cleanup s).stream_closed = true := by
  cases h : s.tmp_exists <;> simp [stt_cleanup, h]

/-- On a loaded handle, every exit path of `transcribe_audio_file` runs the
`finally` block, so the temporary file is gone and the stream closed. -/
theorem transcribe_state_clean (m : STTModel) (f : UploadFile) :
    (transcribe_audio_file (some m) f).2.tmp_exists = false
    ∧ (transcribe_audio_file (some m) f).2.stream_closed = true := by
  unfold transcribe_audio_file
  cases hcopy : f.copy_error with
  | some msg => simpa [hcopy] using stt_cleanup_clears ⟨true, true, false, 0⟩
  | none =>
    cases hres : m.transcribe f.content with
    | error e => simpa [hcopy, hres] using stt_cleanup_clears ⟨true, true, false, 1⟩
    | ok r => simpa [hcopy, hres] using stt_cleanup_clears ⟨true, true, false, 1⟩

/-! ## Claims -/

/-- C1, counterexample: a `/tts/` request with an empty payload while the
synthesis handle is absent is answered 503, not 400 — the code checks the
handle (main.py line 42) before validating `text` (line 47), so the claimed
`400 regardless of whether the handle is loaded` is false. -/
theorem C1_counterexample :
    (text_to_speech none []).1.status = 503
    ∧ (text_to_speech none []).1.status ≠ 400
    ∧ (text_to_speech none []).2 = 0 := by
  refine ⟨rfl, by decide, rfl⟩

/-- C1 (amended): when the synthesis handle is loaded, a missing or empty
(falsy) `text` field yields 400 with zero synthesis-model invocations; when
the handle is absent, the handle check runs first and the same request
yields 503, still with zero invocations. -/
theorem C1_amended_thm (m : TTSModel) (payload : List (String × Json))
    (h : (requestText payload).truthy = false) :
    text_to_speech (some m) payload
      = (.httpError 400 "\x27text\x27 field is required in the JSON payload.", 0)
    ∧ text_to_speech none payload
      = (.httpError 503 "TTS service is unavailable due to model loading issues.", 0) := by
  exact ⟨by simp [text_to_speech, h], rfl⟩

/-- C1 witness: the amended theorem applied to the payload
`{"text": ""}` and the concrete model `ttsModelA`. -/
theorem C1_witness :
    (requestText [("text", Json.str "")]).truthy = false
    ∧ (text_to_speech (some ttsModelA) [("text", Json.str "")]
        = (.httpError 400 "\x27text\x27 field is required in the JSON payload.", 0)
       ∧ text_to_speech none [("text", Json.str "")]
        = (.httpError 503 "TTS service is unavailable due to model loading issues.", 0)) :=
  ⟨rfl, C1_amended_thm ttsModelA [("text", Json.str "")] rfl⟩

/-- C5: when a model handle is unset, the corresponding endpoint answers
503 service-unavailable and the model is invoked zero times — for `/tts/`
with the synthesis handle and `/stt/` with the recognition handle, on every
request. -/
theorem C5_thm (payload : List (String × Json)) (f : UploadFile) :
    text_to_speech none payload
      = (.httpError 503 "TTS service is unavailable due to model loading issues.", 0)
    ∧ speech_to_text none f
      = (.httpError 503 "STT service is unavailable due to model loading issues.",
         ⟨false, false, false, 0⟩) :=
  ⟨rfl, rfl⟩

/-- C9: both service operations re-check the handle themselves: called with
an absent handle, `synthesize_speech_to_bytes` and `transcribe_audio_file`
raise `RuntimeError` immediately, with zero model invocations, and the
transcription path creates no temporary file. -/
theorem C9_thm (t : Json) (f : UploadFile) :
    synthesize_speech_to_bytes none t
      = (.error (.runtimeError
          "TTS model is not loaded. Please check logs for errors during startup."), 0)
    ∧ transcribe_audio_file none f
      = (.error (.runtimeError
          "STT model is not loaded. Please check logs for errors during startup."),
         ⟨false, false, false, 0⟩) :=
  ⟨rfl, rfl⟩

/-- C8, counterexample: a `/stt/` request with no filename while the
recognition handle is absent is answered 503, not 400 — the code checks the
handle (main.py line 73) before the filename (line 77). -/
theorem C8_counterexample :
    (speech_to_text none ⟨none, [], none⟩).1.status = 503
    ∧ (speech_to_text none ⟨none, [], none⟩).1.status ≠ 400
    ∧ (speech_to_text none ⟨none, [], none⟩).2 = ⟨false, false, false, 0⟩ := by
  refine ⟨rfl, by decide, rfl⟩

/-- C8 (amended): when the recognition handle is loaded, a request with no
file attached or an empty filename is answered 400, with zero model
invocations and no temporary-file creation; when the handle is absent the
same request is answered 503, still with no invocation or file creation. -/
theorem C8_amended_thm (model : STTModel) (f : UploadFile)
    (h : filenameTruthy f.filename = false) :
    speech_to_text (some model) f
      = (.httpError 400 "No audio file provided.", ⟨false, false, false, 0⟩)
    ∧ speech_to_text none f
      = (.httpError 503 "STT service is unavailable due to model loading issues.",
         ⟨false, false, false, 0⟩) := by
  exact ⟨by simp [speech_to_text, h], rfl⟩

/-- C8 witness: the amended theorem applied to an upload with an empty
filename and the concrete model `sttModelA`. -/
theorem C8_witness :
    filenameTruthy (some "") = false
    ∧ (speech_to_text (some sttModelA) ⟨some "", [], none⟩
        = (.httpError 400 "No audio file provided.", ⟨false, false, false, 0⟩)
       ∧ speech_to_text none ⟨some "", [], none⟩
        = (.httpError 503 "STT service is unavailable due to model loading issues.",
           ⟨false, false, false, 0⟩)) :=
  ⟨rfl, C8_amended_thm sttModelA ⟨some "", [], none⟩ rfl⟩

/-- C2: on a loaded recognition handle, every exit path of
`transcribe_audio_file` (success, copy failure, model failure) leaves the
temporary file removed and the upload stream closed; at the endpoint, the
final state of every `/stt/` request has no surviving temporary file. -/
theorem C2_thm (model : STTModel) (f : UploadFile) :
    ((transcribe_audio_file (some model) f).2.tmp_exists = false
     ∧ (transcribe_audio_file (some model) f).2.stream_closed = true)
    ∧ ∀ m : Option STTModel, (speech_to_text m f).2.tmp_exists = false := by
  refine ⟨transcribe_state_clean model f, ?_⟩
  intro m
  cases m with
  | none => rfl
  | some model2 =>
    unfold speech_to_text
    cases hft : filenameTruthy f.filename with
    | false => simp [hft]
    | true =>
      simp only [hft]
      have hclean := (transcribe_state_clean model2 f).1
      rcases hres : transcribe_audio_file (some model2) f with ⟨res, s⟩
      rw [hres] at hclean
      cases res with
      | ok t => simpa using hclean
      | error e => cases e with
        | runtimeError msg => simpa using hclean
        | otherError msg => simpa using hclean

/-- C7: with the recognition handle loaded, a valid upload whose copy and
transcription succeed is answered 200 with exactly the original filename
and the `text` field of the model's structured result; the final state
shows one model invocation, the temporary file created and removed, and the
stream closed. -/
theorem C7_thm (model : STTModel) (f : UploadFile) (s : String)
    (r : TranscribeResult) (hf : f.filename = some s) (hs : s.isEmpty = false)
    (hc : f.copy_error = none) (ht : model.transcribe f.content = .ok r) :
    speech_to_text (some model) f = (.ok s r.text, ⟨true, false, true, 1⟩) := by
  simp [speech_to_text, transcribe_audio_file, filenameTruthy, hf, hs, hc, ht,
    stt_cleanup]

/-- C7 witness: the theorem applied to a concrete upload named `a.wav` and
the model `sttModelA`, which transcribes it to `"hello"`. -/
theorem C7_witness :
    (⟨some "a.wav", [1, 2, 3], none⟩ : UploadFile).filename = some "a.wav"
    ∧ "a.wav".isEmpty = false
    ∧ (⟨some "a.wav", [1, 2, 3], none⟩ : UploadFile).copy_error = none
    ∧ sttModelA.transcribe [1, 2, 3] = .ok ⟨"hello", [], "en"⟩
    ∧ speech_to_text (some sttModelA) ⟨some "a.wav", [1, 2, 3], none⟩
        = (.ok "a.wav" "hello", ⟨true, false, true, 1⟩) :=
  ⟨rfl, rfl, rfl, rfl,
    C7_thm sttModelA ⟨some "a.wav", [1, 2, 3], none⟩ "a.wav" ⟨"hello", [], "en"⟩
      rfl rfl rfl rfl⟩

/-- C10, counterexample: the truthy non-string value `5` for `text` passes
validation but is never forwarded to the synthesis service — evaluating
`text[:50]` in the log call (main.py line 52) raises `TypeError`, mapped by
`except Exception` to the unexpected-error 500 with zero model
invocations. -/
theorem C10_counterexample :
    (requestText [("text", Json.num 5)]).truthy = true
    ∧ text_to_speech (some ttsModelA) [("text", Json.num 5)]
        = (.httpError 500
            ("An unexpected error occurred during TTS: " ++ notSubscriptableMsg), 0) :=
  ⟨rfl, rfl⟩

/-- C10 (amended): with the handle loaded, the `text` validation rejects
with 400 exactly the absent/falsy values (null, false, 0, empty string,
empty list, empty object) with zero invocations; a truthy sliceable value
(non-empty string or list) is forwarded unmodified to the synthesis
service, which invokes the model on exactly that value; a truthy
non-sliceable value (number, true, non-empty object) raises `TypeError` in
the log call and yields the unexpected-error 500 with zero invocations. -/
theorem C10_amended_thm (m : TTSModel) (payload : List (String × Json)) :
    ((requestText payload).truthy = false →
      text_to_speech (some m) payload
        = (.httpError 400 "\x27text\x27 field is required in the JSON payload.", 0))
    ∧ (∀ w, (requestText payload).truthy = true →
        (requestText payload).sliceable = true →
        m.tts (requestText payload) = .ok w →
        text_to_speech (some m) payload
          = (.ok (sf_write_wav_pcm16 w (probe_sample_rate m)) "audio/wav", 1))
    ∧ ((requestText payload).truthy = true →
        (requestText payload).sliceable = false →
        text_to_speech (some m) payload
          = (.httpError 500
              ("An unexpected error occurred during TTS: " ++ notSubscriptableMsg), 0)) := by
  refine ⟨fun h => by simp [text_to_speech, h], fun w h1 h2 h3 => ?_, fun h1 h2 => ?_⟩
  · simp [text_to_speech, h1, h2, synthesize_speech_to_bytes, h3]
  · simp [text_to_speech, h1, h2]

/-- C10 witness: the amended theorem applied to `ttsModelA` and the payload
`{"text": "hi"}`, whose truthy sliceable value is forwarded unmodified. -/
theorem C10_witness :
    (requestText [("text", Json.str "hi")]).truthy = true
    ∧ (requestText [("text", Json.str "hi")]).sliceable = true
    ∧ ttsModelA.tts (requestText [("text", Json.str "hi")]) = .ok [1, 2]
    ∧ text_to_speech (some ttsModelA) [("text", Json.str "hi")]
        = (.ok (sf_write_wav_pcm16 [1, 2] (probe_sample_rate ttsModelA)) "audio/wav", 1) :=
  ⟨rfl, rfl, rfl,
    (C10_amended_thm ttsModelA [("text", Json.str "hi")]).2.1 [1, 2] rfl rfl rfl⟩

/-- C3: an exception raised by the synthesis model is wrapped into the
single failure kind `RuntimeError("Failed to synthesize speech: ...")`
carrying the original message; `/tts/` answers 500 with a detail containing
that underlying text; and the failure is not process-fatal — the same
handler state serves a subsequent valid request with a 200 WAV stream. -/
theorem C3_thm (m : TTSModel) (p1 p2 : List (String × Json))
    (t1 t2 : String) (e : String) (w : List Nat)
    (h1 : requestText p1 = Json.str t1) (ht1 : t1.isEmpty = false)
    (hfail : m.tts (Json.str t1) = .error e)
    (h2 : requestText p2 = Json.str t2) (ht2 : t2.isEmpty = false)
    (hok : m.tts (Json.str t2) = .ok w) :
    synthesize_speech_to_bytes (some m) (Json.str t1)
      = (.error (.runtimeError ("Failed to synthesize speech: " ++ e)), 1)
    ∧ text_to_speech (some m) p1
      = (.httpError 500
          ("TTS synthesis failed: " ++ ("Failed to synthesize speech: " ++ e)), 1)
    ∧ text_to_speech (some m) p2
      = (.ok (sf_write_wav_pcm16 w (probe_sample_rate m)) "audio/wav", 1) := by
  refine ⟨?_, ?_, ?_⟩
  · simp [synthesize_speech_to_bytes, Json.sliceable, hfail]
  · simp [text_to_speech, h1, Json.truthy, ht1, Json.sliceable,
      synthesize_speech_to_bytes, hfail]
  · simp [text_to_speech, h2, Json.truthy, ht2, Json.sliceable,
      synthesize_speech_to_bytes, hok]

/-- C3 witness: the theorem applied to `ttsModelFlaky`, which raises `boom`
on the text `"ERR"` and succeeds on `"hi"`. -/
theorem C3_witness :
    requestText [("text", Json.str "ERR")] = Json.str "ERR"
    ∧ "ERR".isEmpty = false
    ∧ ttsModelFlaky.tts (Json.str "ERR") = .error "boom"
    ∧ requestText [("text", Json.str "hi")] = Json.str "hi"
    ∧ "hi".isEmpty = false
    ∧ ttsModelFlaky.tts (Json.str "hi") = .ok [7]
    ∧ (synthesize_speech_to_bytes (some ttsModelFlaky) (Json.str "ERR")
        = (.error (.runtimeError ("Failed to synthesize speech: " ++ "boom")), 1)
       ∧ text_to_speech (some ttsModelFlaky) [("text", Json.str "ERR")]
        = (.httpError 500
            ("TTS synthesis failed: " ++ ("Failed to synthesize speech: " ++ "boom")), 1)
       ∧ text_to_speech (some ttsModelFlaky) [("text", Json.str "hi")]
        = (.ok (sf_write_wav_pcm16 [7] (probe_sample_rate ttsModelFlaky)) "audio/wav", 1)) :=
  ⟨rfl, rfl, rfl, rfl, rfl, rfl,
    C3_thm ttsModelFlaky [("text", Json.str "ERR")] [("text", Json.str "hi")]
      "ERR" "hi" "boom" [7] rfl rfl rfl rfl rfl rfl⟩

/-- C4, counterexample: a model whose synthesizer exposes
`output_sample_rate = 0` (with 44100 available in the audio config) has a
sample-rate source available, yet the probe still uses the hardcoded
fallback 22050 — the code falls back whenever the probed value is 0
(tts_module.py line 53), so `fallback iff neither source is available` is
false. -/
theorem C4_counterexample :
    ttsModelZero.synthesizer.bind Synthesizer.output_sample_rate = some 0
    ∧ (probedSource ttsModelZero).isSome = true
    ∧ probe_sample_rate ttsModelZero = 22050
    ∧ probe_sample_rate ttsModelZero ≠ 44100 :=
  ⟨rfl, rfl, rfl, by decide⟩

/-- C4 (amended): the probe is ordered as claimed — the synthesizer's
explicit output-sample-rate property if present, else the sample-rate field
of the audio configuration — and the value of the first available source is
used when it is nonzero; the hardcoded fallback 22050 is used when no
source is available or when the probed value is 0. -/
theorem C4_amended_thm (m : TTSModel) :
    (∀ r, probedSource m = some r → r ≠ 0 → probe_sample_rate m = r)
    ∧ (probedSource m = none → probe_sample_rate m = 22050)
    ∧ (probedSource m = some 0 → probe_sample_rate m = 22050) := by
  unfold probe_sample_rate probedSource
  cases hs : m.synthesizer.bind Synthesizer.output_sample_rate with
  | some r =>
    refine ⟨fun r2 hr2 hne => ?_, fun hnone => by simp at hnone, fun h0 => ?_⟩
    · simp only [Option.some.injEq] at hr2
      subst hr2
      simp [hne]
    · simp only [Option.some.injEq] at h0
      subst h0
      simp
  | none =>
    cases hc : (m.config.bind TTSConfig.audio).bind AudioConfig.sample_rate with
    | some r =>
      refine ⟨fun r2 hr2 hne => ?_, fun hnone => by simp at hnone, fun h0 => ?_⟩
      · simp only [Option.some.injEq] at hr2
        subst hr2
        simp [hne]
      · simp only [Option.some.injEq] at h0
        subst h0
        simp
    | none => exact ⟨fun r2 hr2 _ => by simp at hr2, fun _ => by simp, fun h0 => by simp at h0⟩

/-- C4 witness: the amended theorem applied to `ttsModel44`, whose
synthesizer exposes the nonzero rate 44100, which the probe returns. -/
theorem C4_witness :
    probedSource ttsModel44 = some 44100
    ∧ (44100 : Nat) ≠ 0
    ∧ probe_sample_rate ttsModel44 = 44100 :=
  ⟨rfl, by decide, (C4_amended_thm ttsModel44).1 44100 rfl (by decide)⟩

/-- Decoding the four little-endian bytes of a 32-bit field recovers every
value below 2^32. -/
theorem u32_decode (n : Nat) (h : n < 4294967296) :
    n % 256 + 256 * (n / 256 % 256) + 65536 * (n / 65536 % 256)
      + 16777216 * (n / 16777216 % 256) = n := by
  omega

/-- Each sample word encodes to exactly two data bytes. -/
theorem length_flatMap_u16le (w : List Nat) :
    (w.flatMap u16le).length = 2 * w.length := by
  induction w with
  | nil => rfl
  | cons a t ih =>
    simp [u16le, ih]
    omega

/-- The byte buffer written by `sf_write_wav_pcm16` parses as a WAV file:
PCM format 1, mono, 16 bits per sample, the written sample rate and byte
rate, and a data size of two bytes per sample. -/
theorem parseWav_sf_write (w : List Nat) (sr : Nat)
    (hlen : 36 + 2 * w.length < 4294967296) (hsr : sr * 2 < 4294967296) :
    parseWav (sf_write_wav_pcm16 w sr)
      = some ⟨1, 1, sr, sr * 2, 2, 16, 2 * w.length⟩ := by
  have hl : (w.flatMap u16le).length = 2 * w.length := length_flatMap_u16le w
  unfold sf_write_wav_pcm16
  simp only [u16le, u32le, List.cons_append, List.nil_append, hl]
  have hds : 2 * w.length < 4294967296 := by omega
  have hsrb : sr < 4294967296 := by omega
  have e1 := u32_decode (36 + 2 * w.length) hlen
  have e2 := u32_decode (2 * w.length) hds
  have e3 := u32_decode sr hsrb
  have e4 := u32_decode (sr * 2) hsr
  simp only [parseWav]
  rw [e1, e2, e3, e4]
  split
  next h => norm_num
  next h => exact absurd (by simp [hl]) h

/-- C6: with the synthesis handle loaded and the model returning a waveform
on a non-empty text, `/tts/` answers with a byte buffer that parses as a
valid WAV container — PCM format 1, mono, 16 bits per sample — whose header
sample rate is exactly the rate determined by (or defaulted for) the loaded
model, served with the `audio/wav` media type after one model
invocation. -/
theorem C6_thm (m : TTSModel) (payload : List (String × Json)) (t : String)
    (w : List Nat) (hp : requestText payload = Json.str t)
    (ht : t.isEmpty = false) (hw : m.tts (Json.str t) = .ok w)
    (hlen : 36 + 2 * w.length < 4294967296)
    (hsr : probe_sample_rate m * 2 < 4294967296) :
    text_to_speech (some m) payload
      = (.ok (sf_write_wav_pcm16 w (probe_sample_rate m)) "audio/wav", 1)
    ∧ parseWav (sf_write_wav_pcm16 w (probe_sample_rate m))
      = some ⟨1, 1, probe_sample_rate m, probe_sample_rate m * 2, 2, 16,
              2 * w.length⟩ := by
  constructor
  · simp [text_to_speech, hp, Json.truthy, ht, Json.sliceable,
      synthesize_speech_to_bytes, hw]
  · exact parseWav_sf_write w (probe_sample_rate m) hlen hsr

/-- C6 witness: the theorem applied to `ttsModelA` (rate 22050) and the
payload `{"text": "hi"}`, whose two-sample waveform becomes a 48-byte WAV
buffer with header sample rate 22050. -/
theorem C6_witness :
    requestText [("text", Json.str "hi")] = Json.str "hi"
    ∧ "hi".isEmpty = false
    ∧ ttsModelA.tts (Json.str "hi") = .ok [1, 2]
    ∧ 36 + 2 * [1, 2].length < 4294967296
    ∧ probe_sample_rate ttsModelA * 2 < 4294967296
    ∧ (text_to_speech (some ttsModelA) [("text", Json.str "hi")]
        = (.ok (sf_write_wav_pcm16 [1, 2] (probe_sample_rate ttsModelA)) "audio/wav", 1)
       ∧ parseWav (sf_write_wav_pcm16 [1, 2] (probe_sample_rate ttsModelA))
        = some ⟨1, 1, probe_sample_rate ttsModelA, probe_sample_rate ttsModelA * 2,
                2, 16, 2 * [1, 2].length⟩) :=
  ⟨rfl, rfl, rfl, by norm_num, by decide,
    C6_thm ttsModelA [("text", Json.str "hi")] "hi" [1, 2] rfl rfl rfl
      (by norm_num) (by decide)⟩
